import Mathlib

/-!
Shallow embedding of the nusb platform-abstraction layer:
`src/platform/linux_usbfs/enumeration.rs` (sysfs device enumeration) and
`src/platform/windows_winusb/hub.rs` (hub ioctl descriptor requests),
with theorems settling the specification claims about them.
-/

/-! ## Rust integer parsing primitives

The sysfs attribute reader parses values with Rust's `str::parse::<u8>`
(decimal) and `uN::from_str_radix(s, 16)` (hex).  Both accept an optional
leading sign, then one or more digits of the radix, and fail on overflow.
For an unsigned target a leading minus only succeeds on a zero value
(checked subtraction from zero). -/

/-- Value of a character as a digit in the given radix (Rust `char::to_digit`),
restricted to the radices 10 and 16 used here. -/
def digitInRadix (radix : Nat) (c : Char) : Option Nat :=
  let v : Option Nat :=
    if '0' ≤ c ∧ c ≤ '9' then some (c.toNat - 48)
    else if 'a' ≤ c ∧ c ≤ 'f' then some (c.toNat - 97 + 10)
    else if 'A' ≤ c ∧ c ≤ 'F' then some (c.toNat - 65 + 10)
    else none
  match v with
  | some d => if d < radix then some d else none
  | none => none

/-- One digit step of Rust's integer parsing: multiply the accumulator by the
radix and add (or, for a negative sign on an unsigned type, subtract) the
digit, failing when the value leaves `[0, bound]`. -/
def parseStep (radix bound : Nat) (neg : Bool) (acc : Option Nat) (c : Char) : Option Nat :=
  match acc with
  | none => none
  | some a =>
    match digitInRadix radix c with
    | none => none
    | some d =>
      if a * radix > bound then none
      else if neg then
        if d ≤ a * radix then some (a * radix - d) else none
      else
        if a * radix + d ≤ bound then some (a * radix + d) else none

/-- Digit-run phase of Rust's integer parsing: a nonempty run of digits
folded through `parseStep` from zero. -/
def parseDigitsFold (radix bound : Nat) (neg : Bool) (digits : List Char) : Option Nat :=
  if digits.isEmpty then none
  else digits.foldl (parseStep radix bound neg) (some 0)

/-- Rust's `from_str_radix` for an unsigned integer with maximum value
`bound`: optional sign, then a nonempty run of digits, overflow-checked. -/
def parseUIntRadix (radix bound : Nat) (s : String) : Option Nat :=
  match s.data with
  | [] => none
  | '+' :: rest => parseDigitsFold radix bound false rest
  | '-' :: rest => parseDigitsFold radix bound true rest
  | l => parseDigitsFold radix bound false l

/-- Rust `str::parse::<u8>` (`u8::from_str`, decimal). -/
def u8FromStr (s : String) : Option Nat := parseUIntRadix 10 255 s

/-- Rust `u8::from_str_radix(s, 16)` (the `FromHexStr` impl for `u8`). -/
def u8FromHexStr (s : String) : Option Nat := parseUIntRadix 16 255 s

/-- Rust `u16::from_str_radix(s, 16)` (the `FromHexStr` impl for `u16`). -/
def u16FromHexStr (s : String) : Option Nat := parseUIntRadix 16 65535 s

theorem parseStep_le_bound (radix bound : Nat) (neg : Bool) (acc : Option Nat) (c : Char)
    (n : Nat) (h : parseStep radix bound neg acc c = some n) : n ≤ bound := by
  cases acc with
  | none => simp [parseStep] at h
  | some a =>
    cases hd : digitInRadix radix c with
    | none => simp [parseStep, hd] at h
    | some d =>
      simp only [parseStep, hd] at h
      split at h
      · exact absurd h (by simp)
      · split at h
        · split at h
          · cases h; omega
          · exact absurd h (by simp)
        · split at h
          · cases h; omega
          · exact absurd h (by simp)

theorem foldl_parseStep_le_bound (radix bound : Nat) (neg : Bool) (l : List Char)
    (acc : Option Nat) (n : Nat)
    (h : l.foldl (parseStep radix bound neg) acc = some n)
    (hacc : ∀ a, acc = some a → a ≤ bound) : n ≤ bound := by
  induction l generalizing acc with
  | nil =>
    simp only [List.foldl_nil] at h
    exact hacc n h
  | cons c rest ih =>
    simp only [List.foldl_cons] at h
    exact ih _ h (fun a ha => parseStep_le_bound radix bound neg acc c a ha)

theorem parseDigitsFold_le_bound (radix bound : Nat) (neg : Bool) (digits : List Char)
    (n : Nat) (h : parseDigitsFold radix bound neg digits = some n) : n ≤ bound := by
  unfold parseDigitsFold at h
  split at h
  · exact absurd h (by simp)
  · exact foldl_parseStep_le_bound _ _ _ _ _ _ h (by intro a ha; cases ha; exact Nat.zero_le _)

/-- Any value produced by the bounded parser is within its bound. -/
theorem parseUIntRadix_le_bound (radix bound : Nat) (s : String) (n : Nat)
    (h : parseUIntRadix radix bound s = some n) : n ≤ bound := by
  unfold parseUIntRadix at h
  split at h
  · exact absurd h (by simp)
  · exact parseDigitsFold_le_bound _ _ _ _ _ h
  · exact parseDigitsFold_le_bound _ _ _ _ _ h
  · exact parseDigitsFold_le_bound _ _ _ _ _ h

theorem u8FromStr_le (s : String) (n : Nat) (h : u8FromStr s = some n) : n ≤ 255 :=
  parseUIntRadix_le_bound 10 255 s n h

/-! ## Sysfs model (`linux_usbfs/enumeration.rs`)

A sysfs directory is modelled by its file name and its attribute files:
`attrs a = some v` means the attribute file `a` reads as the text `v`,
`attrs a = none` means reading it fails (missing file or IO error).
A device directory additionally has its immediate subdirectories. -/

structure SysfsDir where
  name : String
  attrs : String → Option String

structure DeviceDir where
  dir : SysfsDir
  children : List SysfsDir

/-- Rust's `str::trim` on the underlying characters (structurally
recursive so that concrete attribute strings evaluate by kernel
reduction; the attribute texts are ASCII, where Rust's and Lean's
whitespace predicates agree). -/
def rustTrim (s : String) : String :=
  ⟨((s.data.dropWhile Char.isWhitespace).reverse.dropWhile Char.isWhitespace).reverse⟩

/-- Rust's `str::split(sep)` for a character separator: the pieces between
occurrences of `sep`, keeping empty pieces, `[""]` on the empty string. -/
def splitOnChar (sep : Char) : List Char → List (List Char)
  | [] => [[]]
  | c :: rest =>
    match splitOnChar sep rest with
    | [] => [[c]]
    | h :: t => if c = sep then [] :: h :: t else (c :: h) :: t

/-- `p.split('.')` as strings. -/
def splitDot (s : String) : List String := (splitOnChar '.' s.data).map String.mk

/-- The classification carried by `SysfsErrorKind`: an IO failure (the
underlying OS error is abstracted away) or a parse failure retaining the raw
unparsed text. -/
inductive SysfsErrorKind
  | io
  | parse (raw : String)
deriving DecidableEq

/-- `SysfsError(attr_path, kind)`: the full attribute path and a
classification of the failure. -/
structure SysfsError where
  attrPath : String
  kind : SysfsErrorKind
deriving DecidableEq

/-- `SysfsPath::parse_attr`: read the attribute's text (IO failure if
unreadable), trim it, and run the supplied parser (parse failure, retaining
the raw text, if it rejects). -/
def parse_attr {α : Type} (d : SysfsDir) (attr : String) (parse : String → Option α) :
    Except SysfsError α :=
  match d.attrs attr with
  | none => .error ⟨d.name ++ "/" ++ attr, .io⟩
  | some v =>
    match parse (rustTrim v) with
    | none => .error ⟨d.name ++ "/" ++ attr, .parse v⟩
    | some x => .ok x

/-- `read_attr::<u8>` (decimal grammar). -/
def read_attr_u8 (d : SysfsDir) (attr : String) : Except SysfsError Nat :=
  parse_attr d attr u8FromStr

/-- `read_attr::<String>`; `String`'s `FromStr` is infallible, so this fails
only on an IO error and returns the trimmed text. -/
def read_attr_string (d : SysfsDir) (attr : String) : Except SysfsError String :=
  parse_attr d attr some

/-- `read_attr_hex::<u8>`. -/
def read_attr_hex_u8 (d : SysfsDir) (attr : String) : Except SysfsError Nat :=
  parse_attr d attr u8FromHexStr

/-- `read_attr_hex::<u16>`. -/
def read_attr_hex_u16 (d : SysfsDir) (attr : String) : Except SysfsError Nat :=
  parse_attr d attr u16FromHexStr

/-- Modelled from the spec: the `Speed` enumeration and its known-speed
lookup (`Speed::from_str`) live outside the provided sources (crate root);
§4.4 of the spec describes mapping the speed attribute text through a
known-speed lookup, with unrecognized values yielding absence. -/
inductive Speed
  | low
  | full
  | high
  | superSpeed
  | superSpeedPlus
deriving DecidableEq

def Speed.from_str : String → Option Speed
  | "1.5" => some .low
  | "12" => some .full
  | "480" => some .high
  | "5000" => some .superSpeed
  | "10000" => some .superSpeedPlus
  | "20000" => some .superSpeedPlus
  | _ => none

/-- `InterfaceInfo` (the source field `class` is named `ifaceClass` here,
`class` being a reserved word). -/
structure InterfaceInfo where
  interface_number : Nat
  ifaceClass : Nat
  subclass : Nat
  protocol : Nat
  interface_string : Option String
deriving DecidableEq

/-- `DeviceInfo` (the source field `class` is named `devClass` here); `path`
holds the originating directory name standing in for the source's
`SysfsPath`. -/
structure DeviceInfo where
  busnum : Nat
  bus_id : String
  device_address : Nat
  port_chain : List Nat
  vendor_id : Nat
  product_id : Nat
  device_version : Nat
  devClass : Nat
  subclass : Nat
  protocol : Nat
  max_packet_size_0 : Nat
  speed : Option Speed
  manufacturer_string : Option String
  product_string : Option String
  serial_number : Option String
  interfaces : List InterfaceInfo
  path : String
deriving DecidableEq

/-- `format!("{busnum:03}")`: the decimal representation zero-padded on the
left to width 3. -/
def formatBusId (n : Nat) : String :=
  ⟨List.replicate (3 - (Nat.repr n).length) '0' ++ (Nat.repr n).data⟩

/-- Rust's `collect::<Option<Vec<_>>>()`: all elements present or nothing. -/
def collectOption {α : Type} : List (Option α) → Option (List α)
  | [] => some []
  | none :: _ => none
  | some x :: rest => (collectOption rest).map (x :: ·)

/-- Port-chain derivation from the result of reading the `devpath`
attribute: split on `.`, parse every segment as a decimal `u8`, and collapse
to `[]` when the read failed or any segment fails to parse
(`.ok().and_then(..collect::<Option<Vec<u8>>>()).unwrap_or_default()`). -/
def portChainFromRead : Option String → List Nat
  | none => []
  | some p => (collectOption ((splitDot p).map u8FromStr)).getD []

/-- The interface-collection closure of `probe_device`: all four required
interface attributes must read and parse, else the subdirectory is skipped;
the interface string is best-effort. -/
def readInterface (i : SysfsDir) : Option InterfaceInfo := do
  let interface_number ← (read_attr_hex_u8 i "bInterfaceNumber").toOption
  let ifaceClass ← (read_attr_hex_u8 i "bInterfaceClass").toOption
  let subclass ← (read_attr_hex_u8 i "bInterfaceSubClass").toOption
  let protocol ← (read_attr_hex_u8 i "bInterfaceProtocol").toOption
  some
    { interface_number, ifaceClass, subclass, protocol,
      interface_string := (read_attr_string i "interface").toOption }

/-- Ordering of interfaces by interface number used for the final sort
(`sort_unstable_by_key(|i| i.interface_number)`). -/
def ifaceLE (a b : InterfaceInfo) : Prop := a.interface_number ≤ b.interface_number

instance : DecidableRel ifaceLE := fun _ _ => Nat.decLe _ _

instance : IsTotal InterfaceInfo ifaceLE := ⟨fun _ _ => Nat.le_total _ _⟩

instance : IsTrans InterfaceInfo ifaceLE := ⟨fun _ _ _ => Nat.le_trans⟩

/-- Interface gathering of `probe_device`: keep subdirectories whose name
contains `:`, read each as an interface (skipping failures), and sort by
interface number.  The source's unstable sort is modelled by insertion
sort; the claims proved below depend only on key order. -/
def deviceInterfaces (children : List SysfsDir) : List InterfaceInfo :=
  List.insertionSort ifaceLE
    ((children.filter fun i => i.name.data.contains ':').filterMap readInterface)

/-- `probe_device`: reads the required numeric attributes in source order
(each aborting the probe on failure), derives the best-effort fields, and
assembles the `DeviceInfo`.  The best-effort fields (port chain, speed,
strings, interfaces) cannot fail, so computing them inside the final
record — the source computes the port chain between `devnum` and the
struct literal — yields the identical `Except` value. -/
def probe_device (d : DeviceDir) : Except SysfsError DeviceInfo := do
  let busnum ← read_attr_u8 d.dir "busnum"
  let device_address ← read_attr_u8 d.dir "devnum"
  let vendor_id ← read_attr_hex_u16 d.dir "idVendor"
  let product_id ← read_attr_hex_u16 d.dir "idProduct"
  let device_version ← read_attr_hex_u16 d.dir "bcdDevice"
  let devClass ← read_attr_hex_u8 d.dir "bDeviceClass"
  let subclass ← read_attr_hex_u8 d.dir "bDeviceSubClass"
  let protocol ← read_attr_hex_u8 d.dir "bDeviceProtocol"
  let max_packet_size_0 ← read_attr_u8 d.dir "bMaxPacketSize0"
  pure
    { busnum,
      bus_id := formatBusId busnum,
      device_address,
      port_chain := portChainFromRead (read_attr_string d.dir "devpath").toOption,
      vendor_id, product_id, device_version, devClass, subclass, protocol,
      max_packet_size_0,
      speed := (read_attr_string d.dir "speed").toOption.bind Speed.from_str,
      manufacturer_string := (read_attr_string d.dir "manufacturer").toOption,
      product_string := (read_attr_string d.dir "product").toOption,
      serial_number := (read_attr_string d.dir "serial").toOption,
      interfaces := deviceInterfaces d.children,
      path := d.dir.name }

/-- The candidate filter of `list_devices`: every byte of the entry name is
a decimal digit, `-`, or `.` (the allowed bytes are ASCII, so the check on
encoded bytes coincides with this per-character check). -/
def nameIsCandidate (n : String) : Bool :=
  n.data.all fun c => ('0' ≤ c && c ≤ '9') || c = '-' || c = '.'

/-- `list_devices` over a snapshot of the `/sys/bus/usb/devices/` entries:
keep entries whose name passes the candidate filter, probe each, and drop
(with a logged warning, not modelled) those whose probe fails. -/
def list_devices (entries : List DeviceDir) : List DeviceInfo :=
  entries.filterMap fun d =>
    if nameIsCandidate d.dir.name then (probe_device d).toOption else none

/-! ## Hub model (`windows_winusb/hub.rs`)

`HubHandle::get_descriptor` builds a `USB_DESCRIPTOR_REQUEST` in a freshly
allocated buffer, issues `IOCTL_USB_GET_DESCRIPTOR_FROM_NODE_CONNECTION`,
and on success copies out the trailing payload.  The ioctl itself is the
OS boundary and is modelled by an oracle outcome: either success with a
reported `bytes_returned`, or failure with a `GetLastError` code.  Machine
integers are modelled as `Nat` with explicit wrap-around where the source
casts can overflow. -/

/-- Layout of `USB_DESCRIPTOR_REQUEST` on the windows ABI:
`ConnectionIndex : u32` (4 bytes), `SetupPacket` (8 bytes: two `u8`, three
`u16`), `Data : [u8; 1]`; alignment 4, so `size_of` is 16 and the offset of
`Data` is 12. -/
def usbDescriptorRequestSize : Nat := 16

def usbDescriptorRequestDataOffset : Nat := 12

def ERROR_GEN_FAILURE : Nat := 31

/-- The standard descriptor-request setup block written into the request. -/
structure UsbSetupPacket where
  bmRequest : Nat
  bRequest : Nat
  wValue : Nat
  wIndex : Nat
  wLength : Nat
deriving DecidableEq

/-- The header fields of `USB_DESCRIPTOR_REQUEST` populated before the
ioctl (the trailing `Data` region starts zeroed and is written by the OS). -/
structure UsbDescriptorRequest where
  ConnectionIndex : Nat
  SetupPacket : UsbSetupPacket
deriving DecidableEq

/-- Heap events of one `get_descriptor` call, for the allocation /
deallocation pairing of the request buffer. -/
inductive HeapEvent
  | alloc (id : Nat)
  | dealloc (id : Nat)
deriving DecidableEq

/-- Oracle for the `DeviceIoControl` call: success reports the
`bytes_returned` value written by the OS (a `u32`), failure reports the
`GetLastError` code. -/
inductive IoctlOutcome
  | success (bytesReturned : Nat)
  | failure (errorCode : Nat)
deriving DecidableEq

/-- The two error shapes produced on this path: `Error::new(kind, msg)` and
`Error::from_raw_os_error(code)`. -/
inductive WinError
  | message (kind : String) (text : String)
  | rawOsError (code : Nat)
deriving DecidableEq

/-- Payload length computed on the success path of `get_descriptor`:
`start` points at `Data` (offset 12), `end` at `req + bytes_returned`, and
the code takes `end.offset_from(start) as usize` with no bounds check, so
a `bytes_returned` below 12 wraps around to a huge unsigned length. -/
def computedPayloadLen (bytesReturned : Nat) : Nat :=
  (((bytesReturned : Int) - (usbDescriptorRequestDataOffset : Int)) % (2 ^ 64)).toNat

/-- Everything observable about one `HubHandle::get_descriptor` call: the
request written into the buffer, the allocation size, the heap events, and
the result (modelled by the length of the returned byte vector). -/
structure GetDescriptorCall where
  request : UsbDescriptorRequest
  allocSize : Nat
  events : List HeapEvent
  result : Except WinError Nat

/-- `HubHandle::get_descriptor`: the requested length is the local constant
4095 (no caller-supplied length exists); the buffer of
`size_of::<USB_DESCRIPTOR_REQUEST>() + length` bytes is allocated, the
header is populated (`wValue` packs the descriptor type in the high byte
and index in the low byte; the inputs are `u8`/`u16`, kept as bounded
`Nat`s), the ioctl is issued, the success path copies out
`computedPayloadLen bytes_returned` bytes, the failure path maps
`ERROR_GEN_FAILURE` to the distinguished suspended-device message and any
other code to a raw OS error, and the buffer is deallocated exactly once
before returning on either path. -/
def get_descriptor (port_number descriptor_type descriptor_index language_id : Nat)
    (outcome : IoctlOutcome) : GetDescriptorCall :=
  let length : Nat := 4095
  let req : UsbDescriptorRequest :=
    { ConnectionIndex := port_number,
      SetupPacket :=
        { bmRequest := 0x80,
          bRequest := 0x06,
          wValue := (descriptor_type % 256) * 256 + descriptor_index % 256,
          wIndex := language_id,
          wLength := length } }
  let res : Except WinError Nat :=
    match outcome with
    | .success bytesReturned => .ok (computedPayloadLen bytesReturned)
    | .failure errorCode =>
      .error
        (if errorCode = ERROR_GEN_FAILURE then
          .message "Other" "Descriptor request failed. Device might be suspended."
        else
          .rawOsError errorCode)
  { request := req,
    allocSize := usbDescriptorRequestSize + length,
    events := [.alloc 0] ++ [.dealloc 0],
    result := res }

/-- `HubPort`: a hub handle plus the fixed port number. -/
structure HubPort where
  hub_handle : Nat
  port_number : Nat
deriving DecidableEq

/-- `HubPort::by_child_devinst`, with the external `cfgmgr32` lookups
passed in as oracles: `parent` is `devinst.parent()`, `openHub` is
`HubHandle::by_devinst` on the parent, and `portProperty` is
`devinst.get_property::<u32>(DEVPKEY_Device_Address)`. -/
def by_child_devinst (parent : Option Nat) (openHub : Nat → Option Nat)
    (portProperty : Option Nat) : Except WinError HubPort :=
  match parent with
  | none => .error (.message "Other" "failed to find parent hub")
  | some p =>
    match openHub p with
    | none => .error (.message "Other" "failed to open parent hub")
    | some h =>
      match portProperty with
      | none => .error (.message "NotConnected" "Could not find hub port number")
      | some n => .ok { hub_handle := h, port_number := n }

/-! ## Helper lemmas -/

theorem except_error_bind {ε α β : Type} (e : ε) (f : α → Except ε β) :
    (Except.error e >>= f) = Except.error e := rfl

theorem except_ok_bind {ε α β : Type} (a : α) (f : α → Except ε β) :
    (Except.ok a >>= f) = f a := rfl

theorem except_pure_eq {ε α : Type} (a : α) : (pure a : Except ε α) = Except.ok a := rfl

theorem except_bind_ok {ε α β : Type} (x : Except ε α) (f : α → Except ε β) (b : β) :
    (x >>= f) = Except.ok b ↔ ∃ a, x = Except.ok a ∧ f a = Except.ok b := by
  cases x with
  | error e =>
    rw [except_error_bind]
    simp
  | ok a =>
    rw [except_ok_bind]
    simp

theorem collectOption_map_eq_none {α β : Type} (f : α → Option β) (l : List α) (a : α)
    (ha : a ∈ l) (hf : f a = none) : collectOption (l.map f) = none := by
  induction l with
  | nil => cases ha
  | cons x xs ih =>
    cases ha with
    | head => simp [collectOption, hf]
    | tail _ hmem =>
      cases hfx : f x with
      | none => simp [collectOption, hfx]
      | some y => simp [collectOption, hfx, ih hmem]

theorem read_attr_u8_le (d : SysfsDir) (attr : String) (n : Nat)
    (h : read_attr_u8 d attr = .ok n) : n ≤ 255 := by
  unfold read_attr_u8 parse_attr at h
  split at h
  · exact absurd h (by simp)
  · split at h
    · exact absurd h (by simp)
    · cases h
      next hx => exact u8FromStr_le _ _ hx

theorem probe_device_ok_spec (d : DeviceDir) (r : DeviceInfo) (h : probe_device d = .ok r) :
    r.path = d.dir.name ∧
    r.bus_id = formatBusId r.busnum ∧
    r.busnum ≤ 255 ∧
    r.port_chain = portChainFromRead (read_attr_string d.dir "devpath").toOption ∧
    r.interfaces = deviceInterfaces d.children := by
  unfold probe_device at h
  simp only [except_bind_ok, except_pure_eq, Except.ok.injEq] at h
  obtain ⟨busnum, h1, device_address, h2, vendor_id, h3, product_id, h4, device_version, h5,
    devClass, h6, subclass, h7, protocol, h8, mps, h9, hr⟩ := h
  subst hr
  exact ⟨rfl, rfl, read_attr_u8_le _ _ _ h1, rfl, rfl⟩

def withDevpath (d : DeviceDir) (v : Option String) : DeviceDir :=
  { d with dir := { d.dir with attrs := fun a => if a = "devpath" then v else d.dir.attrs a } }

theorem parse_attr_withDevpath {α : Type} (d : DeviceDir) (v : Option String) (attr : String)
    (p : String → Option α) (h : attr ≠ "devpath") :
    parse_attr (withDevpath d v).dir attr p = parse_attr d.dir attr p := by
  simp [parse_attr, withDevpath, h]

theorem parse_attr_withDevpath_devpath (d : DeviceDir) (v : Option String) :
    (parse_attr (withDevpath d v).dir "devpath" some).toOption = v.map rustTrim := by
  cases v <;> simp [parse_attr, withDevpath, Except.toOption]

theorem except_map_error {ε α β : Type} (f : α → β) (e : ε) :
    Except.map f (Except.error e : Except ε α) = Except.error e := rfl

theorem except_map_ok {ε α β : Type} (f : α → β) (a : α) :
    Except.map f (Except.ok a : Except ε α) = Except.ok (f a) := rfl

theorem probe_device_withDevpath (d : DeviceDir) (v : Option String) :
    probe_device (withDevpath d v) = (probe_device d).map
      (fun r => { r with port_chain := portChainFromRead (v.map rustTrim) }) := by
  unfold probe_device
  simp only [read_attr_u8, read_attr_hex_u16, read_attr_hex_u8, read_attr_string]
  simp [parse_attr_withDevpath, parse_attr_withDevpath_devpath]
  cases parse_attr d.dir "busnum" u8FromStr with
  | error e => rfl
  | ok busnum =>
  simp only [except_ok_bind]
  cases parse_attr d.dir "devnum" u8FromStr with
  | error e => rfl
  | ok device_address =>
  simp only [except_ok_bind]
  cases parse_attr d.dir "idVendor" u16FromHexStr with
  | error e => rfl
  | ok vendor_id =>
  simp only [except_ok_bind]
  cases parse_attr d.dir "idProduct" u16FromHexStr with
  | error e => rfl
  | ok product_id =>
  simp only [except_ok_bind]
  cases parse_attr d.dir "bcdDevice" u16FromHexStr with
  | error e => rfl
  | ok device_version =>
  simp only [except_ok_bind]
  cases parse_attr d.dir "bDeviceClass" u8FromHexStr with
  | error e => rfl
  | ok devClass =>
  simp only [except_ok_bind]
  cases parse_attr d.dir "bDeviceSubClass" u8FromHexStr with
  | error e => rfl
  | ok subclass =>
  simp only [except_ok_bind]
  cases parse_attr d.dir "bDeviceProtocol" u8FromHexStr with
  | error e => rfl
  | ok protocol =>
  simp only [except_ok_bind]
  cases parse_attr d.dir "bMaxPacketSize0" u8FromStr with
  | error e => rfl
  | ok mps =>
  rfl

theorem except_toOption_eq_some {ε α : Type} (x : Except ε α) (a : α) :
    x.toOption = some a ↔ x = .ok a := by
  cases x <;> simp [Except.toOption]

/-! ## Concrete example devices used by the witnesses -/

def emptyDeviceInfo : DeviceInfo :=
  { busnum := 0, bus_id := "", device_address := 0, port_chain := [], vendor_id := 0,
    product_id := 0, device_version := 0, devClass := 0, subclass := 0, protocol := 0,
    max_packet_size_0 := 0, speed := none, manufacturer_string := none,
    product_string := none, serial_number := none, interfaces := [], path := "" }

def exampleIface (num ifname : String) : SysfsDir :=
  { name := ifname,
    attrs := fun a =>
      if a = "bInterfaceNumber" then some num
      else if a = "bInterfaceClass" then some "ff\n"
      else if a = "bInterfaceSubClass" then some "00\n"
      else if a = "bInterfaceProtocol" then some "00\n"
      else if a = "interface" then some "Example Interface\n"
      else none }

/-- A well-formed sysfs device (with its interface subdirectories listed out
of interface-number order, and a non-interface `power` subdirectory). -/
def exampleDev : DeviceDir :=
  { dir :=
    { name := "1-6.4",
      attrs := fun a =>
        if a = "busnum" then some "1\n"
        else if a = "devnum" then some "5\n"
        else if a = "devpath" then some "1.6.4\n"
        else if a = "idVendor" then some "1d50\n"
        else if a = "idProduct" then some "6089\n"
        else if a = "bcdDevice" then some "0100\n"
        else if a = "bDeviceClass" then some "00\n"
        else if a = "bDeviceSubClass" then some "00\n"
        else if a = "bDeviceProtocol" then some "00\n"
        else if a = "bMaxPacketSize0" then some "64\n"
        else if a = "speed" then some "480\n"
        else if a = "manufacturer" then some "Example Corp\n"
        else if a = "product" then some "Example Device\n"
        else if a = "serial" then some "123456\n"
        else none },
    children := [exampleIface "01\n" "1-6.4:1.1", exampleIface "00\n" "1-6.4:1.0",
                 { name := "power", attrs := fun _ => none }] }

def exampleInfo : DeviceInfo := (probe_device exampleDev).toOption.getD emptyDeviceInfo

/-- A device whose required `idVendor` attribute file is missing. -/
def badDev : DeviceDir :=
  { dir :=
    { name := "1-7",
      attrs := fun a =>
        if a = "busnum" then some "1\n"
        else if a = "devnum" then some "8\n"
        else none },
    children := [] }

/-! ## Claims about the sysfs enumeration backend -/

/-- C3: for every device probe the port chain is all-or-nothing: the chain
of a successful probe is exactly the all-or-nothing parse of the `devpath`
attribute; a devpath reading "1.6.4" yields the chain [1, 6, 4]; a missing
attribute yields []; any '.'-separated segment failing the 8-bit decimal
parse collapses the whole chain to [] (never a partial prefix); and a probe
that succeeds still succeeds with any (or no) devpath value. -/
theorem c3_port_chain_all_or_nothing :
    (∀ d r, probe_device d = .ok r →
      r.port_chain = portChainFromRead (read_attr_string d.dir "devpath").toOption) ∧
    portChainFromRead (some "1.6.4") = [1, 6, 4] ∧
    portChainFromRead none = [] ∧
    (∀ p s, s ∈ splitDot p → u8FromStr s = none → portChainFromRead (some p) = []) ∧
    (∀ d r v, probe_device d = .ok r → (probe_device (withDevpath d v)).isOk = true) := by
  refine ⟨?_, by decide, rfl, ?_, ?_⟩
  · intro d r h
    exact (probe_device_ok_spec d r h).2.2.2.1
  · intro p s hs hnone
    show (collectOption ((splitDot p).map u8FromStr)).getD [] = []
    rw [collectOption_map_eq_none u8FromStr _ s hs hnone]
    rfl
  · intro d r v h
    rw [probe_device_withDevpath, h]
    rfl

theorem c3_witness :
    exampleInfo.port_chain =
      portChainFromRead (read_attr_string exampleDev.dir "devpath").toOption ∧
    portChainFromRead (some "1.6.x") = [] ∧
    (probe_device (withDevpath exampleDev none)).isOk = true :=
  ⟨c3_port_chain_all_or_nothing.1 exampleDev exampleInfo rfl,
   c3_port_chain_all_or_nothing.2.2.2.1 "1.6.x" "x" (by decide) (by decide),
   c3_port_chain_all_or_nothing.2.2.2.2 exampleDev exampleInfo none rfl⟩

/-- C4: the interfaces of every successfully probed device are sorted in
non-decreasing interface-number order, whatever the order of the underlying
subdirectory enumeration (the quantification over `d` covers every
enumeration order of the children). -/
theorem c4_interfaces_sorted (d : DeviceDir) (r : DeviceInfo)
    (h : probe_device d = .ok r) :
    List.Sorted (· ≤ ·) (r.interfaces.map InterfaceInfo.interface_number) := by
  rw [(probe_device_ok_spec d r h).2.2.2.2]
  unfold deviceInterfaces List.Sorted
  rw [List.pairwise_map]
  exact List.Pairwise.imp (fun hab => hab) (List.sorted_insertionSort ifaceLE _)

theorem c4_witness :
    List.Sorted (· ≤ ·) (exampleInfo.interfaces.map InterfaceInfo.interface_number) :=
  c4_interfaces_sorted exampleDev exampleInfo rfl

/-- C5: an entry of the device-tree root is a candidate if and only if its
name consists only of the characters 0-9, `-` and `.`; consequently every
enumerated device originates from a candidate name, which can contain no
`:` (the interface shape) and cannot be a root-hub-shaped name such as
"usb1". -/
theorem c5_candidate_name_filter :
    (∀ n, nameIsCandidate n = true ↔
      ∀ c ∈ n.data, ('0' ≤ c ∧ c ≤ '9') ∨ c = '-' ∨ c = '.') ∧
    (∀ entries info, info ∈ list_devices entries →
      nameIsCandidate info.path = true ∧ ¬ ':' ∈ info.path.data) ∧
    nameIsCandidate "usb1" = false ∧
    nameIsCandidate "1-6:1.0" = false := by
  have hchar : ∀ n, nameIsCandidate n = true ↔
      ∀ c ∈ n.data, ('0' ≤ c ∧ c ≤ '9') ∨ c = '-' ∨ c = '.' := by
    intro n
    simp [nameIsCandidate, List.all_eq_true, Bool.or_eq_true, Bool.and_eq_true,
      decide_eq_true_eq, or_assoc]
  refine ⟨hchar, ?_, by decide, by decide⟩
  intro entries info hmem
  unfold list_devices at hmem
  rw [List.mem_filterMap] at hmem
  obtain ⟨d, _, hf⟩ := hmem
  by_cases hc : nameIsCandidate d.dir.name = true
  · rw [if_pos hc] at hf
    have hok : probe_device d = .ok info := (except_toOption_eq_some _ _).1 hf
    rw [(probe_device_ok_spec d info hok).1]
    refine ⟨hc, fun hin => ?_⟩
    rcases (hchar d.dir.name).1 hc ':' hin with ⟨_, h2⟩ | h | h
    · exact absurd h2 (by decide)
    · exact absurd h (by decide)
    · exact absurd h (by decide)
  · rw [if_neg hc] at hf
    cases hf

theorem c5_witness :
    nameIsCandidate exampleInfo.path = true ∧ ¬ ':' ∈ exampleInfo.path.data :=
  c5_candidate_name_filter.2.1 [exampleDev] exampleInfo
    (by rw [show list_devices [exampleDev] = [exampleInfo] from rfl]
        exact List.mem_singleton_self _)

/-- C6: a failure to read or parse the required vendor-id attribute (after
the earlier required reads succeeded) makes the probe of that device return
the classified error; and a device whose probe fails contributes nothing to
the enumeration while every other entry's contribution is unchanged. -/
theorem c6_single_device_failure_isolated :
    (∀ d e b a, read_attr_u8 d.dir "busnum" = .ok b →
      read_attr_u8 d.dir "devnum" = .ok a →
      read_attr_hex_u16 d.dir "idVendor" = .error e →
      probe_device d = .error e) ∧
    (∀ pre post d, (∃ e, probe_device d = .error e) →
      list_devices (pre ++ d :: post) = list_devices pre ++ list_devices post) := by
  constructor
  · intro d e b a hb ha hv
    unfold probe_device
    rw [hb]
    simp only [except_ok_bind]
    rw [ha]
    simp only [except_ok_bind]
    rw [hv]
    rfl
  · rintro pre post d ⟨e, he⟩
    unfold list_devices
    rw [List.filterMap_append, List.filterMap_cons]
    simp [he, Except.toOption]

theorem c6_witness :
    probe_device badDev = .error ⟨"1-7/idVendor", .io⟩ ∧
    list_devices [exampleDev, badDev] = list_devices [exampleDev] ++ list_devices [] :=
  ⟨c6_single_device_failure_isolated.1 badDev ⟨"1-7/idVendor", .io⟩ 1 8 rfl rfl rfl,
   c6_single_device_failure_isolated.2 [exampleDev] [] badDev
     ⟨⟨"1-7/idVendor", .io⟩,
      c6_single_device_failure_isolated.1 badDev ⟨"1-7/idVendor", .io⟩ 1 8 rfl rfl rfl⟩⟩

set_option maxRecDepth 4000 in
/-- C7: the bus id of every successfully probed device is its bus number
zero-padded to exactly 3 decimal digits; bus number 1 gives "001", 42 gives
"042", and every 8-bit bus number formats to exactly 3 digits. -/
theorem c7_bus_id_three_digits :
    (∀ d r, probe_device d = .ok r →
      r.bus_id = formatBusId r.busnum ∧ r.busnum ≤ 255 ∧ r.bus_id.length = 3) ∧
    formatBusId 1 = "001" ∧
    formatBusId 42 = "042" ∧
    (∀ n, n ≤ 255 → (formatBusId n).length = 3) := by
  have hlen : ∀ n, n ≤ 255 → (formatBusId n).length = 3 := by decide
  refine ⟨?_, by decide, by decide, hlen⟩
  intro d r h
  obtain ⟨-, hb, hle, -, -⟩ := probe_device_ok_spec d r h
  exact ⟨hb, hle, by rw [hb]; exact hlen _ hle⟩

theorem c7_witness :
    exampleInfo.bus_id = formatBusId exampleInfo.busnum ∧
    exampleInfo.busnum ≤ 255 ∧ exampleInfo.bus_id.length = 3 :=
  c7_bus_id_three_digits.1 exampleDev exampleInfo rfl

/-! ## Claims about the hub descriptor backend -/

def HeapEvent.isAlloc : HeapEvent → Bool
  | .alloc _ => true
  | .dealloc _ => false

def HeapEvent.isDealloc : HeapEvent → Bool
  | .alloc _ => false
  | .dealloc _ => true

/-- C1 (refutation by evaluation): the success path of `get_descriptor`
computes the payload length with no bounds check.  For a successful ioctl
reporting `bytes_returned = 0` (less than the 12-byte offset of the payload
region) the computed length is the wrapped-around value `2 ^ 64 - 12`, not
the zero length the specification requires, and it vastly exceeds the
allocated payload region of `allocSize - 12` bytes — an out-of-bounds
read. -/
theorem c1_unchecked_payload_length :
    (get_descriptor 1 1 0 0 (.success 0)).result = .ok (2 ^ 64 - 12) ∧
    computedPayloadLen 0 ≠ 0 ∧
    (get_descriptor 1 1 0 0 (.success 0)).allocSize - usbDescriptorRequestDataOffset
      < 2 ^ 64 - 12 := by
  refine ⟨?_, by decide, by decide⟩
  show Except.ok (computedPayloadLen 0) = Except.ok (2 ^ 64 - 12)
  rw [show computedPayloadLen 0 = 2 ^ 64 - 12 from by decide]

/-- C2: every descriptor request issued by `get_descriptor` carries
`wLength = 4095`: a request of length 4096 or greater is never issued (the
ceiling is enforced by construction — the length is a local constant and no
caller-supplied length exists), and the length 4095 that is issued is at
most 4095. -/
theorem c2_length_ceiling (port_number descriptor_type descriptor_index language_id : Nat)
    (outcome : IoctlOutcome) :
    (get_descriptor port_number descriptor_type descriptor_index language_id
        outcome).request.SetupPacket.wLength = 4095 ∧
    ¬ 4096 ≤ (get_descriptor port_number descriptor_type descriptor_index language_id
        outcome).request.SetupPacket.wLength :=
  ⟨rfl, fun h => by simp [get_descriptor] at h⟩

/-- C8: `HubPort::by_child_devinst` has exactly three failure shapes — a
missing parent yields the "no parent hub" error, a parent whose hub handle
cannot be opened yields the distinct open-failure error, and a missing
port-number property yields the distinct "not connected" error — and
otherwise binds the opened hub handle and the port number. -/
theorem c8_hub_port_construction (parent : Option Nat) (openHub : Nat → Option Nat)
    (portProperty : Option Nat) :
    (parent = none → by_child_devinst parent openHub portProperty =
      .error (.message "Other" "failed to find parent hub")) ∧
    (∀ p, parent = some p → openHub p = none →
      by_child_devinst parent openHub portProperty =
        .error (.message "Other" "failed to open parent hub")) ∧
    (∀ p h, parent = some p → openHub p = some h → portProperty = none →
      by_child_devinst parent openHub portProperty =
        .error (.message "NotConnected" "Could not find hub port number")) ∧
    (∀ p h n, parent = some p → openHub p = some h → portProperty = some n →
      by_child_devinst parent openHub portProperty =
        .ok { hub_handle := h, port_number := n }) ∧
    WinError.message "Other" "failed to find parent hub" ≠
      WinError.message "Other" "failed to open parent hub" ∧
    WinError.message "Other" "failed to find parent hub" ≠
      WinError.message "NotConnected" "Could not find hub port number" ∧
    WinError.message "Other" "failed to open parent hub" ≠
      WinError.message "NotConnected" "Could not find hub port number" := by
  refine ⟨?_, ?_, ?_, ?_, by decide, by decide, by decide⟩
  · intro h
    subst h
    rfl
  · intro p hp ho
    subst hp
    simp [by_child_devinst, ho]
  · intro p h hp ho hn
    subst hp
    subst hn
    simp [by_child_devinst, ho]
  · intro p h n hp ho hn
    subst hp
    subst hn
    simp [by_child_devinst, ho]

theorem c8_witness :
    by_child_devinst none (fun _ => none) none =
      .error (.message "Other" "failed to find parent hub") ∧
    by_child_devinst (some 3) (fun _ => some 7) none =
      .error (.message "NotConnected" "Could not find hub port number") ∧
    by_child_devinst (some 3) (fun _ => some 7) (some 2) =
      .ok { hub_handle := 7, port_number := 2 } :=
  ⟨(c8_hub_port_construction none (fun _ => none) none).1 rfl,
   (c8_hub_port_construction (some 3) (fun _ => some 7) none).2.2.1 3 7 rfl rfl rfl,
   (c8_hub_port_construction (some 3) (fun _ => some 7) (some 2)).2.2.2.1 3 7 2 rfl rfl rfl⟩

/-- C9: on every path of `get_descriptor` — ioctl success and every ioctl
failure alike — the request buffer is allocated once and released exactly
once, the release following the allocation; no path leaks the buffer. -/
theorem c9_buffer_released_once (port_number descriptor_type descriptor_index language_id : Nat)
    (outcome : IoctlOutcome) :
    (get_descriptor port_number descriptor_type descriptor_index language_id
        outcome).events = [.alloc 0, .dealloc 0] ∧
    ((get_descriptor port_number descriptor_type descriptor_index language_id
        outcome).events.filter HeapEvent.isAlloc).length = 1 ∧
    ((get_descriptor port_number descriptor_type descriptor_index language_id
        outcome).events.filter HeapEvent.isDealloc).length = 1 :=
  ⟨rfl, rfl, rfl⟩

/-- C10: `get_descriptor` exposes no requested-length parameter: for every
port, descriptor type, descriptor index and language id the issued
request's `wLength` is exactly 4095 and the allocation is exactly the
16-byte header plus a 4095-byte payload region, identically across all
inputs. -/
theorem c10_fixed_request_length (port_number descriptor_type descriptor_index language_id : Nat)
    (outcome : IoctlOutcome) :
    (get_descriptor port_number descriptor_type descriptor_index language_id
        outcome).request.SetupPacket.wLength = 4095 ∧
    (get_descriptor port_number descriptor_type descriptor_index language_id
        outcome).allocSize = usbDescriptorRequestSize + 4095 ∧
    ∀ p2 t2 i2 l2 o2,
      (get_descriptor p2 t2 i2 l2 o2).request.SetupPacket.wLength =
        (get_descriptor port_number descriptor_type descriptor_index language_id
          outcome).request.SetupPacket.wLength :=
  ⟨rfl, rfl, fun _ _ _ _ _ => rfl⟩

theorem c2_witness :
    (get_descriptor 1 1 0 0 (.failure 5)).request.SetupPacket.wLength = 4095 ∧
    ¬ 4096 ≤ (get_descriptor 1 1 0 0 (.failure 5)).request.SetupPacket.wLength :=
  c2_length_ceiling 1 1 0 0 (.failure 5)
